import Mathlib

/-!
Verification development for the dnppy raster-alignment module
(`dnppy_install/raster/raster.py` and `dnppy_install/core/create_outname.py`).

The Python source is shallowly embedded: numpy float grids become
`List (List ℚ)`, the georeferencing metadata object produced by `to_numpy`
becomes the structure `Meta`, Python slice/broadcast semantics of the numpy
assignment used by `clip_and_snap` are translated explicitly, and the
file-system / arcpy-environment effects of `clip_and_snap` and
`find_overlap` are modelled by explicit state passing over a `World`.
-/

namespace Dnppy

/-- A raster pixel grid as loaded by `to_numpy`: row-major, row 0 at the top. -/
abbrev Grid := List (List ℚ)

/-- The metadata object built by `to_numpy` (raster.py lines 83-106):
lower-left corner, cell sizes, pixel dimensions and the NoData sentinel. -/
structure Meta where
  Xmin : ℚ
  Ymin : ℚ
  cellWidth : ℚ
  cellHeight : ℚ
  Xsize : ℕ
  Ysize : ℕ
  NoData_Value : ℚ
deriving DecidableEq

/-- Python 2 `round` to the nearest integer: half-way cases round away
from zero (Mathlib's `round` is half-up, which agrees for nonnegative
arguments and is mirrored for negative ones). -/
def pyRound (q : ℚ) : ℤ := if 0 ≤ q then round q else -(round (-q))

/-- `round(q, 5)` as used in `spatially_match` (raster.py line 435),
scaled by `10^5` so the result is an integer: `round(q,5) != 1` is
`round5 q ≠ 100000`. -/
def round5 (q : ℚ) : ℤ := pyRound (q * 100000)

/-- Normalisation of one bound of a Python slice `a:b` over an axis of
length `n`: negative indices count from the end, then the bound is clamped
into `[0, n]`. -/
def pySliceBound (n : ℕ) (i : ℤ) : ℕ :=
  if i < 0 then ((n : ℤ) + i).toNat else min i.toNat n

/-- Number of rows of a grid (numpy `shape[0]`). -/
def gridH (g : Grid) : ℕ := g.length

/-- Number of columns of a grid (numpy `shape[1]`, read off the first row). -/
def gridW (g : Grid) : ℕ := (g.headD []).length

/-- Element access `g[i, j]` with an out-of-range default. -/
def get2 (g : Grid) (i j : ℕ) : ℚ := (g.getD i []).getD j 0

/-! ### find_overlap (raster.py lines 329-374)

The in-memory computation on the two loaded arrays:
pixels inside the band `[NoData * 0.99999, NoData * 1.00001]` are
overwritten with `1`, the two arrays are summed, and the sum is
thresholded at `2`. -/

/-- `a[(a >= NoData * 0.99999) & (a <= NoData * 1.00001)] = 1`
applied to a single pixel (raster.py lines 361-362). -/
def maskNoData (nd v : ℚ) : ℚ :=
  if nd * (99999 / 100000) ≤ v ∧ v ≤ nd * (100001 / 100000) then 1 else v

/-- One pixel of the overlap output: the masked pixels are summed and the
sum thresholded (`Workmatrix[Workmatrix < 2] = 0; Workmatrix[Workmatrix >= 2] = 1`,
raster.py lines 365-367). -/
def overlapPixel (ndA ndB a b : ℚ) : ℚ :=
  if maskNoData ndA a + maskNoData ndB b < 2 then 0 else 1

/-- The full overlap grid produced by `find_overlap` on two coincident arrays. -/
def find_overlap_grid (ndA ndB : ℚ) (a b : Grid) : Grid :=
  List.zipWith (fun ra rb => List.zipWith (fun x y => overlapPixel ndA ndB x y) ra rb) a b

/-- A pixel "has data" in the sense of the specification: its value lies
outside the ±0.001% relative tolerance band around the NoData value.
This definition follows the spec's words, for comparison with the
source-derived `overlapPixel`. -/
def hasDataSpec (nd v : ℚ) : Bool := decide (|v - nd| > |nd| * (1 / 100000))

/-- One pixel of the overlap output as the specification describes it:
1 iff both pixels have data. -/
def overlapPixelSpec (ndA ndB a b : ℚ) : ℚ :=
  if hasDataSpec ndA a ∧ hasDataSpec ndB b then 1 else 0

/-! ### spatially_match resolution check (raster.py lines 435-445) -/

/-- Outcome of the cell-size check inside `spatially_match`'s per-raster loop. -/
inductive ResampAction
  | noop
  | resample
  | raiseError
deriving DecidableEq

/-- The cell-size branch of `spatially_match`: the error is raised only when
the height ratio AND the width ratio both round away from 1 at 5 decimals
and no resampling type was supplied (raster.py lines 435-445). -/
def spatially_match_res_step (resampSet : Bool) (snapH snapW h w : ℚ) : ResampAction :=
  if round5 (snapH / h) ≠ 100000 ∧ round5 (snapW / w) ≠ 100000 then
    if resampSet then ResampAction.resample else ResampAction.raiseError
  else ResampAction.noop

/-! ### clip_and_snap (raster.py lines 463-559)

The function's post-clip portion: the arcpy `Clip_management` call is
external; what remains is pure array/metadata work:
offset computation (lines 520-521), an extra clip pass when the candidate
is still larger than the reference (lines 525-531), allocation of the
output buffer filled with `meta.NoData_Value` (line 541), and the numpy
slice assignment (lines 553-554). -/

/-- `xoffset = int(round((meta.Xmin - snap_meta.Xmin)/meta.cellWidth, 0))`
(raster.py line 520). -/
def xoffset (snap m : Meta) : ℤ := pyRound ((m.Xmin - snap.Xmin) / m.cellWidth)

/-- `yoffset = int(round((meta.Ymin - snap_meta.Ymin)/meta.cellHeight, 0))`
(raster.py line 521). -/
def yoffset (snap m : Meta) : ℤ := pyRound ((m.Ymin - snap.Ymin) / m.cellHeight)

/-- `if not NoData_Value: NoData_Value = meta.NoData_Value`
(raster.py lines 494-495); an override of `0` is falsy in Python and is
likewise replaced by the candidate's NoData value. -/
def savedNoData (m : Meta) (ov : Option ℚ) : ℚ :=
  match ov with
  | some v => if v = 0 then m.NoData_Value else v
  | none => m.NoData_Value

/-- Row slice lower bound `snap_meta.Ysize - meta.Ysize - yoffset` of the
assignment at raster.py line 553, normalised by Python slice rules. -/
def rowLo (snap m : Meta) : ℕ :=
  pySliceBound snap.Ysize ((snap.Ysize : ℤ) - (m.Ysize : ℤ) - yoffset snap m)

/-- Row slice upper bound `snap_meta.Ysize - yoffset`. -/
def rowHi (snap m : Meta) : ℕ :=
  pySliceBound snap.Ysize ((snap.Ysize : ℤ) - yoffset snap m)

/-- Column slice lower bound `snap_meta.Xsize - meta.Xsize - xoffset` of the
assignment at raster.py line 554. -/
def colLo (snap m : Meta) : ℕ :=
  pySliceBound snap.Xsize ((snap.Xsize : ℤ) - (m.Xsize : ℤ) - xoffset snap m)

/-- Column slice upper bound `snap_meta.Xsize - xoffset`. -/
def colHi (snap m : Meta) : ℕ :=
  pySliceBound snap.Xsize ((snap.Xsize : ℤ) - xoffset snap m)

/-- The output grid of the numpy assignment
`newraster[rlo:rhi, clo:chi] = raster[:,:]` into a `refH × refW` buffer of
`fill` values, assuming the shapes are compatible: cells inside the region
take the candidate's values (a source axis of extent 1 is broadcast),
every other cell keeps the fill value. -/
def placeGrid (refH refW : ℕ) (fill : ℚ) (cand : Grid) (rlo rhi clo chi : ℕ) : Grid :=
  (List.range refH).map fun i =>
    (List.range refW).map fun j =>
      if rlo ≤ i ∧ i < rhi ∧ clo ≤ j ∧ j < chi then
        get2 cand (if gridH cand = 1 then 0 else i - rlo)
                  (if gridW cand = 1 then 0 else j - clo)
      else fill

/-- The numpy slice assignment including its failure mode: numpy raises a
broadcast error when the source shape matches neither the region shape nor
extent 1 on some axis. -/
def numpy_place (refH refW : ℕ) (fill : ℚ) (cand : Grid)
    (rlo rhi clo chi : ℕ) : Except String Grid :=
  if (gridH cand = rhi - rlo ∨ gridH cand = 1) ∧
     (gridW cand = chi - clo ∨ gridW cand = 1) then
    Except.ok (placeGrid refH refW fill cand rlo rhi clo chi)
  else
    Except.error "could not broadcast input array into slice"

/-- The buffer-assembly step of `clip_and_snap` (raster.py lines 520-555)
applied to the already-clipped candidate (`meta`, `cand`): computes the
offsets, allocates a `snap.Ysize × snap.Xsize` buffer filled with
`meta.NoData_Value`, performs the slice assignment, and reports the NoData
value that `from_numpy` is asked to record. -/
def clip_snap_assemble (snap m : Meta) (cand : Grid) (ov : Option ℚ) :
    Except String (Grid × ℚ) :=
  match numpy_place snap.Ysize snap.Xsize m.NoData_Value cand
      (rowLo snap m) (rowHi snap m) (colLo snap m) (colHi snap m) with
  | Except.ok g => Except.ok (g, savedNoData m ov)
  | Except.error e => Except.error e

/-- Number of arcpy clip calls `clip_and_snap` performs: one always
(raster.py line 514), plus exactly one more when the clipped candidate is
still larger than the reference (the `if` at raster.py line 525 — straight-line
code, no loop). -/
def clip_pass_count (snap m : Meta) : ℕ :=
  if snap.Xsize < m.Xsize ∨ snap.Ysize < m.Ysize then 2 else 1

/-! ### many_stats (raster.py lines 182-275)

Per pixel, each raster's value is pushed through the NoData / threshold
replacement of lines 228-236: values equal to that raster's NoData value
become `nan`, then values strictly below `low_thresh` or strictly above
`high_thresh` become `nan` (`nan` compares false, so already-replaced
cells are unaffected).  The statistics of lines 241-264 are then taken on
the masked stack: the mean over unmasked entries and
`NUM = zs - sum(mask)`.  `nan` is modelled as `Option.none`. -/

/-- One value's trip through the replacement steps of raster.py lines
229-236, for the raster whose NoData value is `nd`. -/
def many_stats_filter (nd : ℚ) (low high : Option ℚ) (v : ℚ) : Option ℚ :=
  let v1 : Option ℚ := if v = nd then none else some v
  let v2 : Option ℚ :=
    match v1, low with
    | some x, some l => if x < l then none else some x
    | _, _ => v1
  match v2, high with
  | some x, some h => if h < x then none else some x
  | _, _ => v2

/-- The pixel's column through the masked 3d stack: each entry of `vals`
pairs a raster's value at this pixel with that raster's NoData value. -/
def maskedStack (vals : List (ℚ × ℚ)) (low high : Option ℚ) : List (Option ℚ) :=
  vals.map fun p => many_stats_filter p.2 low high p.1

/-- The unmasked observations at this pixel. -/
def validValues (vals : List (ℚ × ℚ)) (low high : Option ℚ) : List ℚ :=
  (maskedStack vals low high).filterMap id

/-- `NUM` at one pixel: `zs - numpy.sum(mask)` (raster.py line 264). -/
def NUM_pixel (vals : List (ℚ × ℚ)) (low high : Option ℚ) : ℕ :=
  vals.length - (maskedStack vals low high).countP Option.isNone

/-- `AVG` at one pixel: `numpy.mean` of the masked stack (raster.py line
244) — the mean of the unmasked entries, masked (here `none`) when every
entry is masked. -/
def AVG_pixel (vals : List (ℚ × ℚ)) (low high : Option ℚ) : Option ℚ :=
  let valid := validValues vals low high
  if valid.length = 0 then none else some (valid.sum / valid.length)

/-! ### is_rast (raster.py lines 278-292) -/

/-- The extension whitelist of raster.py lines 283-284: the eleven raster
extensions in all-lowercase and in all-uppercase form. -/
def rast_types : List String :=
  ["bil", "bip", "bmp", "bsq", "dat", "gif", "img", "jpg", "jp2", "png", "tif",
   "BIL", "BIP", "BMP", "BSQ", "DAT", "GIF", "IMG", "JPG", "JP2", "PNG", "TIF"]

/-- `is_rast`: the file must exist (`os.path.isfile`, here the environment
parameter `isfile`) and its last three characters (`filename[-3:]`) must
occur in `rast_types` (raster.py lines 285-292). -/
def is_rast (isfile : String → Bool) (filename : String) : Bool :=
  if isfile filename then rast_types.any (fun t => filename.takeRight 3 == t)
  else false

/-- ASCII lower-casing of one character. -/
def lowerChar (c : Char) : Char :=
  if 65 ≤ c.toNat ∧ c.toNat ≤ 90 then Char.ofNat (c.toNat + 32) else c

/-- ASCII lower-casing of a string. -/
def lowerStr (s : String) : String := String.mk (s.data.map lowerChar)

/-- The recognizer as the specification words it: existing file whose
three-character extension matches one of the eleven extensions under
case-insensitive comparison.  Follows the spec, for comparison with the
source-derived `is_rast`. -/
def is_rast_spec (isfile : String → Bool) (filename : String) : Bool :=
  isfile filename &&
    ["bil", "bip", "bmp", "bsq", "dat", "gif", "img", "jpg", "jp2", "png",
     "tif"].any (fun t => lowerStr (filename.takeRight 3) == t)

/-! ### create_outname (core/create_outname.py lines 5-62) -/

/-- A Python value that may be passed for the `ext` parameter: the default
`False`, or a string. -/
inductive PyVal
  | pBool (b : Bool)
  | pStr (s : String)
deriving DecidableEq

/-- The exceptions `create_outname` can raise: `ext.replace` on a bool
(line 35) and the unbound `head` on the `outdir`-falsy path (line 61). -/
inductive PyError
  | attributeError
  | nameError
deriving DecidableEq

/-- `os.path.split`: split at the last separator. -/
def pathSplit (p : String) : String × String :=
  let parts := p.splitOn "/"
  (String.intercalate "/" parts.dropLast, parts.getLastD "")

/-- `os.path.join` for the two-argument uses in `create_outname`. -/
def pathJoin (d name : String) : String :=
  if d = "" then name
  else if d.endsWith "/" then d ++ name
  else d ++ "/" ++ name

/-- `create_outname(outdir, inname, suffix, ext=False)`
(create_outname.py lines 5-62).  `outdir = none` stands for the falsy
`outdir = False`; `isfile` stands for `os.path.isfile`.  The very first
statement is `ext = ext.replace(".", "")` — on the default `False` this
raises AttributeError before anything else runs. -/
def create_outname (isfile : String → Bool) (outdir : Option String)
    (inname suffix : String) (ext : PyVal) : Except PyError String :=
  match ext with
  | PyVal.pBool _ => Except.error PyError.attributeError
  | PyVal.pStr e0 =>
    let e1 := e0.replace "." ""
    let tail := if isfile inname then (pathSplit inname).2 else inname
    let noext :=
      if isfile inname then String.intercalate "." (tail.splitOn ".").dropLast
      else if inname.contains '.' then String.intercalate "." (tail.splitOn ".").dropLast
      else inname
    let sfx :=
      if e1 ≠ "" then "_" ++ suffix ++ "." ++ e1
      else "_" ++ suffix ++ "." ++ (tail.splitOn ".").getLastD ""
    match outdir with
    | some d => Except.ok (pathJoin d (noext ++ sfx))
    | none =>
      if isfile inname then Except.ok (pathJoin (pathSplit inname).1 (noext ++ sfx))
      else Except.error PyError.nameError

/-- The call `core.create_outname(outdir, rastname, 'matched')` inside
`spatially_match` (raster.py line 449): the `ext` argument is left at its
default `False`. -/
def spatially_match_outname (isfile : String → Bool) (outdir : Option String)
    (rastname : String) : Except PyError String :=
  create_outname isfile outdir rastname "matched" (PyVal.pBool false)

/-! ### State effects of clip_and_snap and find_overlap

`clip_and_snap` reads both rasters from disk, sets the process-wide
`arcpy.env.snapRaster` (raster.py line 507), and writes its output file;
its temp directory is created and removed within the call (lines 503-504,
558), so it has no net effect on the file map.  `find_overlap` first runs
`clip_and_snap(file_A, file_B, file_B, False, NoData_B)` — the output
path is input `file_B` itself (raster.py line 352) — then writes the
overlap grid to `outpath` (line 370). -/

/-- A raster file on disk: its metadata and pixel grid. -/
structure RastFile where
  meta : Meta
  grid : Grid
deriving DecidableEq

/-- The ambient state the two operations touch: the files on disk and the
arcpy snap-raster environment setting. -/
structure World where
  files : List (String × RastFile)
  snapEnv : Option String
deriving DecidableEq

/-- Read a file from the world. -/
def lookupFile (w : World) (p : String) : Option RastFile :=
  (w.files.find? fun kv => kv.1 == p).map Prod.snd

/-- Write (create or overwrite) a file. -/
def writeFile (w : World) (p : String) (r : RastFile) : World :=
  World.mk ((p, r) :: w.files) w.snapEnv

/-- Set `arcpy.env.snapRaster`. -/
def setSnapEnv (w : World) (p : String) : World := World.mk w.files (some p)

/-- The state effects of `clip_and_snap(snap_raster, rastname, outname,
numtype, NoData_Value)` (raster.py lines 463-559).  The external arcpy
`Clip_management` call of line 514 is abstracted by the `clipOp`
parameter (it produces the clipped candidate from the reference's
rectangle and the candidate).  The output file carries the reference's
corner and dimensions (lines 534-535 and the buffer shape) and the
NoData value handed to `from_numpy`. -/
def clip_and_snap_fx (clipOp : Meta → RastFile → RastFile)
    (snapName rastName outName : String) (ov : Option ℚ) (w : World) :
    Except String World :=
  match lookupFile w snapName, lookupFile w rastName with
  | some snapF, some rastF =>
    match clip_snap_assemble snapF.meta (clipOp snapF.meta rastF).meta
        (clipOp snapF.meta rastF).grid ov with
    | Except.ok gn =>
      Except.ok (writeFile (setSnapEnv w snapName) outName
        (RastFile.mk
          (Meta.mk snapF.meta.Xmin snapF.meta.Ymin
            (clipOp snapF.meta rastF).meta.cellWidth
            (clipOp snapF.meta rastF).meta.cellHeight
            snapF.meta.Xsize snapF.meta.Ysize gn.2)
          gn.1))
    | Except.error e => Except.error e
  | _, _ => Except.error "input raster does not exist"

/-- The state effects of `find_overlap(file_A, NoData_A, file_B, NoData_B,
outpath)` (raster.py lines 329-374).  The function's first executable
statement, `if check_module('numpy')` at line 346, references
`check_module`, which is not a name of the module (only `core.check_module`
is; the `raster.` qualifiers at lines 347, 352 and 370 and
`Set_Null_Values` at line 371 are equally unresolved), so every call
raises NameError before any state is read or written.  The rest of the
function is unreachable: the `clip_and_snap(file_A, file_B, file_B,
False, NoData_B)` call of line 352 that would overwrite `file_B`, the
pixel computation of lines 355-367 (embedded separately as
`find_overlap_grid`), the overlap write to `outpath` at line 370, the
`Set_Null_Values` call at line 371, and the `RasterToPolygon_conversion`
shapefile write to `outpath[:-4] + '.shp'` at line 372 are never
executed. -/
def find_overlap_fx (_clipOp : Meta → RastFile → RastFile)
    (_fileA _fileB : String) (_ndA _ndB : ℚ) (_outpath : String) (_w : World) :
    Except String World :=
  Except.error "NameError: global name check_module is not defined"

/-- The snap-raster environment after an effectful call, `none` if the
call failed. -/
def envAfter (e : Except String World) : Option String :=
  match e with
  | Except.ok w => w.snapEnv
  | Except.error _ => none

/-- A file's content after an effectful call, `none` if the call failed. -/
def lookupAfter (e : Except String World) (p : String) : Option RastFile :=
  match e with
  | Except.ok w => lookupFile w p
  | Except.error _ => none

/-- The grid assembled by `clip_and_snap` for a candidate whose slice
region is shape-compatible. -/
def clip_snap_grid (snap m : Meta) (cand : Grid) : Grid :=
  placeGrid snap.Ysize snap.Xsize m.NoData_Value cand
    (rowLo snap m) (rowHi snap m) (colLo snap m) (colHi snap m)

/-- Whether an effectful computation ended in an exception. -/
def isErr {α : Type} (e : Except String α) : Bool :=
  match e with
  | Except.ok _ => false
  | Except.error _ => true

/-! Concrete rasters used as test inputs: metadata `Meta.mk Xmin Ymin
cellWidth cellHeight Xsize Ysize NoData_Value`. -/

/-- 2×2 reference raster at the origin with unit cells. -/
def snapA : Meta := Meta.mk 0 0 1 1 2 2 0

/-- 1×1 candidate raster sharing the reference's lower-left corner,
NoData −9999. -/
def candA : Meta := Meta.mk 0 0 1 1 1 1 (-9999)

/-- Reference raster of 1 row and 3 columns at the origin. -/
def snapB : Meta := Meta.mk 0 0 1 1 3 1 0

/-- Reference raster of 1 column and 2 rows at the origin. -/
def snapC : Meta := Meta.mk 0 0 1 1 1 2 0

/-- Candidate of 1 column and 2 rows whose extent `[-3, -1]` lies entirely
below the reference's `[0, 2]`. -/
def candC : Meta := Meta.mk 0 (-3) 1 1 1 2 (-9999)

/-- Candidate of 1 column and 2 rows whose extent `[-4, -2]` lies entirely
below the reference's `[0, 2]`. -/
def candC2 : Meta := Meta.mk 0 (-4) 1 1 1 2 (-9999)

/-- Candidate of 1 column and 3 rows: one row taller than `snapC`. -/
def candD : Meta := Meta.mk 0 0 1 1 1 3 (-9999)

/-- A 1×1 snap-reference raster file. -/
def exSnapFile : RastFile := RastFile.mk (Meta.mk 0 0 1 1 1 1 0) [[0]]

/-- A coincident 1×1 candidate raster file with NoData −9999. -/
def exCandFile : RastFile := RastFile.mk candA [[7]]

/-- Initial state for the `clip_and_snap` effect runs: two raster files on
disk, no snap-raster environment set. -/
def exWorld : World := World.mk [("snap.tif", exSnapFile), ("cand.tif", exCandFile)] none

/-- The output file `clip_and_snap` writes for `exWorld`. -/
def exOutFile : RastFile :=
  RastFile.mk (Meta.mk 0 0 1 1 1 1 (-9999)) (clip_snap_grid exSnapFile.meta candA [[7]])

/-- The state after running `clip_and_snap` on `exWorld`: the snap-raster
environment points at the reference and `out.tif` was written. -/
def exWorldOut : World := writeFile (setSnapEnv exWorld "snap.tif") "out.tif" exOutFile

/-- A 2×2 raster file (input A of a `find_overlap` attempt). -/
def exAFile : RastFile := RastFile.mk (Meta.mk 0 0 1 1 2 2 (-9999)) [[0, 0], [0, 0]]

/-- A 1×1 raster file inside A's extent (input B of a `find_overlap`
attempt). -/
def exBFile : RastFile := RastFile.mk candA [[7]]

/-- Initial state for the `find_overlap` attempt. -/
def exWorld2 : World := World.mk [("a.tif", exAFile), ("b.tif", exBFile)] none

/-! ### Helper lemmas -/

theorem getD_map_range {α : Type} (n : ℕ) (f : ℕ → α) (d : α) (i : ℕ) (h : i < n) :
    ((List.range n).map f).getD i d = f i := by
  rw [List.getD_eq_getElem?_getD, List.getElem?_map, List.getElem?_range h]
  rfl

theorem pySliceBound_le (n : ℕ) (i : ℤ) : pySliceBound n i ≤ n := by
  unfold pySliceBound
  split
  · omega
  · exact min_le_right _ _

theorem length_sub_countP_none (l : List (Option ℚ)) :
    l.length - l.countP Option.isNone = (l.filterMap id).length := by
  induction l with
  | nil => rfl
  | cons a t ih =>
    have hle : t.countP Option.isNone ≤ t.length := List.countP_le_length _
    cases a with
    | none =>
      simp [List.countP_cons, List.filterMap_cons]
      omega
    | some x =>
      simp [List.countP_cons, List.filterMap_cons]
      omega

theorem overlapPixel_comm (ndA ndB a b : ℚ) :
    overlapPixel ndA ndB a b = overlapPixel ndB ndA b a := by
  unfold overlapPixel
  rw [add_comm]

theorem get2_placeGrid (refH refW : ℕ) (fill : ℚ) (cand : Grid)
    (rlo rhi clo chi : ℕ) (i j : ℕ) (hi : i < refH) (hj : j < refW) :
    get2 (placeGrid refH refW fill cand rlo rhi clo chi) i j =
      if rlo ≤ i ∧ i < rhi ∧ clo ≤ j ∧ j < chi then
        get2 cand (if gridH cand = 1 then 0 else i - rlo)
                  (if gridW cand = 1 then 0 else j - clo)
      else fill := by
  unfold get2 placeGrid
  rw [getD_map_range _ _ _ _ hi, getD_map_range _ _ _ _ hj]
  rfl

theorem placeGrid_height (refH refW : ℕ) (fill : ℚ) (cand : Grid) (rlo rhi clo chi : ℕ) :
    gridH (placeGrid refH refW fill cand rlo rhi clo chi) = refH := by
  unfold gridH placeGrid
  rw [List.length_map, List.length_range]

theorem placeGrid_row_length (refH refW : ℕ) (fill : ℚ) (cand : Grid)
    (rlo rhi clo chi : ℕ) (i : ℕ) (hi : i < refH) :
    ((placeGrid refH refW fill cand rlo rhi clo chi).getD i []).length = refW := by
  unfold placeGrid
  rw [getD_map_range _ _ _ _ hi, List.length_map, List.length_range]

theorem row_bounds_inside (snap m : Meta) (hy0 : 0 ≤ yoffset snap m)
    (hyfit : (m.Ysize : ℤ) + yoffset snap m ≤ (snap.Ysize : ℤ)) :
    rowLo snap m + m.Ysize = rowHi snap m ∧ rowHi snap m ≤ snap.Ysize := by
  unfold rowLo rowHi pySliceBound
  rw [if_neg (by omega), if_neg (by omega)]
  omega

theorem col_bounds_inside (snap m : Meta) (hx0 : 0 ≤ xoffset snap m)
    (hxfit : (m.Xsize : ℤ) + xoffset snap m ≤ (snap.Xsize : ℤ)) :
    colLo snap m + m.Xsize = colHi snap m ∧ colHi snap m ≤ snap.Xsize := by
  unfold colLo colHi pySliceBound
  rw [if_neg (by omega), if_neg (by omega)]
  omega

theorem rowLo_eval (snap m : Meta) (v : ℤ) (hv : yoffset snap m = v) :
    rowLo snap m = pySliceBound snap.Ysize ((snap.Ysize : ℤ) - (m.Ysize : ℤ) - v) := by
  unfold rowLo
  rw [hv]

theorem rowHi_eval (snap m : Meta) (v : ℤ) (hv : yoffset snap m = v) :
    rowHi snap m = pySliceBound snap.Ysize ((snap.Ysize : ℤ) - v) := by
  unfold rowHi
  rw [hv]

theorem colLo_eval (snap m : Meta) (v : ℤ) (hv : xoffset snap m = v) :
    colLo snap m = pySliceBound snap.Xsize ((snap.Xsize : ℤ) - (m.Xsize : ℤ) - v) := by
  unfold colLo
  rw [hv]

theorem colHi_eval (snap m : Meta) (v : ℤ) (hv : xoffset snap m = v) :
    colHi snap m = pySliceBound snap.Xsize ((snap.Xsize : ℤ) - v) := by
  unfold colHi
  rw [hv]

theorem rowExtent_lt_of_neg_yoffset (snap m : Meta)
    (hfit : m.Ysize ≤ snap.Ysize) (hneg : yoffset snap m < 0) :
    rowHi snap m - rowLo snap m < m.Ysize ∨ m.Ysize = 0 := by
  unfold rowHi rowLo pySliceBound
  rw [if_neg (by omega), if_neg (by omega)]
  omega

theorem lookupFile_writeFile_ne (w : World) (p q : String) (r : RastFile)
    (h : q ≠ p) : lookupFile (writeFile w p r) q = lookupFile w q := by
  unfold lookupFile writeFile
  have hb : ((p, r).1 == q) = false := beq_eq_false_iff_ne.mpr (Ne.symm h)
  rw [List.find?_cons_of_neg _ (by simp [hb])]

theorem lookupFile_setSnapEnv (w : World) (p q : String) :
    lookupFile (setSnapEnv w p) q = lookupFile w q := rfl

theorem clip_fx_ok_env (clipOp : Meta → RastFile → RastFile)
    (snapName rastName outName : String) (ov : Option ℚ) (w w' : World)
    (h : clip_and_snap_fx clipOp snapName rastName outName ov w = Except.ok w') :
    w'.snapEnv = some snapName := by
  unfold clip_and_snap_fx at h
  split at h
  · split at h
    · simp only [Except.ok.injEq] at h
      subst h
      rfl
    · exact absurd h (by simp)
  · exact absurd h (by simp)

theorem clip_fx_ok_files (clipOp : Meta → RastFile → RastFile)
    (snapName rastName outName : String) (ov : Option ℚ) (w w' : World)
    (h : clip_and_snap_fx clipOp snapName rastName outName ov w = Except.ok w')
    (p : String) (hp : p ≠ outName) : lookupFile w' p = lookupFile w p := by
  unfold clip_and_snap_fx at h
  split at h
  · split at h
    · simp only [Except.ok.injEq] at h
      subst h
      rw [lookupFile_writeFile_ne _ _ _ _ hp]
      rfl
    · exact absurd h (by simp)
  · exact absurd h (by simp)

theorem clip_snap_assemble_error_of_oversize
    (snap m : Meta) (cand : Grid) (ov : Option ℚ)
    (hH : gridH cand = m.Ysize) (hW : gridW cand = m.Xsize)
    (hy : 1 ≤ snap.Ysize) (hx : 1 ≤ snap.Xsize)
    (hover : snap.Xsize < m.Xsize ∨ snap.Ysize < m.Ysize) :
    isErr (clip_snap_assemble snap m cand ov) = true := by
  have hrow : rowHi snap m - rowLo snap m ≤ snap.Ysize :=
    le_trans (Nat.sub_le _ _) (pySliceBound_le _ _)
  have hcol : colHi snap m - colLo snap m ≤ snap.Xsize :=
    le_trans (Nat.sub_le _ _) (pySliceBound_le _ _)
  have hcond : ¬ ((gridH cand = rowHi snap m - rowLo snap m ∨ gridH cand = 1) ∧
      (gridW cand = colHi snap m - colLo snap m ∨ gridW cand = 1)) := by
    rcases hover with hX | hY
    · rintro ⟨-, hc | hc⟩ <;> omega
    · rintro ⟨hc | hc, -⟩ <;> omega
  unfold clip_snap_assemble numpy_place
  rw [if_neg hcond]
  rfl

theorem clip_snap_assemble_error_of_neg_yoffset
    (snap m : Meta) (cand : Grid) (ov : Option ℚ)
    (hH : gridH cand = m.Ysize) (h2 : 2 ≤ m.Ysize) (hfit : m.Ysize ≤ snap.Ysize)
    (hneg : yoffset snap m < 0) :
    isErr (clip_snap_assemble snap m cand ov) = true := by
  have hlt := rowExtent_lt_of_neg_yoffset snap m hfit hneg
  have hcond : ¬ ((gridH cand = rowHi snap m - rowLo snap m ∨ gridH cand = 1) ∧
      (gridW cand = colHi snap m - colLo snap m ∨ gridW cand = 1)) := by
    rintro ⟨hc | hc, -⟩ <;> omega
  unfold clip_snap_assemble numpy_place
  rw [if_neg hcond]
  rfl

theorem clip_snap_assemble_inside
    (snap m : Meta) (cand : Grid) (ov : Option ℚ)
    (hH : gridH cand = m.Ysize) (hW : gridW cand = m.Xsize)
    (hy0 : 0 ≤ yoffset snap m) (hx0 : 0 ≤ xoffset snap m)
    (hyfit : (m.Ysize : ℤ) + yoffset snap m ≤ (snap.Ysize : ℤ))
    (hxfit : (m.Xsize : ℤ) + xoffset snap m ≤ (snap.Xsize : ℤ)) :
    clip_snap_assemble snap m cand ov =
      Except.ok (clip_snap_grid snap m cand, savedNoData m ov) := by
  have hr := row_bounds_inside snap m hy0 hyfit
  have hc := col_bounds_inside snap m hx0 hxfit
  unfold clip_snap_assemble numpy_place
  rw [if_pos ⟨Or.inl (by omega), Or.inl (by omega)⟩]
  rfl

theorem clip_snap_grid_cells
    (snap m : Meta) (cand : Grid)
    (hH : gridH cand = m.Ysize) (hW : gridW cand = m.Xsize)
    (hr1 : rowLo snap m + m.Ysize = rowHi snap m)
    (hc1 : colLo snap m + m.Xsize = colHi snap m)
    (i j : ℕ) (hi : i < snap.Ysize) (hj : j < snap.Xsize) :
    get2 (clip_snap_grid snap m cand) i j =
      if rowLo snap m ≤ i ∧ i < rowLo snap m + m.Ysize ∧
         colLo snap m ≤ j ∧ j < colLo snap m + m.Xsize then
        get2 cand (i - rowLo snap m) (j - colLo snap m)
      else m.NoData_Value := by
  unfold clip_snap_grid
  rw [get2_placeGrid _ _ _ _ _ _ _ _ _ _ hi hj, ← hr1, ← hc1]
  by_cases hreg : rowLo snap m ≤ i ∧ i < rowLo snap m + m.Ysize ∧
      colLo snap m ≤ j ∧ j < colLo snap m + m.Xsize
  · rw [if_pos hreg, if_pos hreg]
    obtain ⟨h1, h2, h3, h4⟩ := hreg
    have e1 : (if gridH cand = 1 then 0 else i - rowLo snap m) = i - rowLo snap m := by
      split
      case isTrue hone => omega
      case isFalse hone => rfl
    have e2 : (if gridW cand = 1 then 0 else j - colLo snap m) = j - colLo snap m := by
      split
      case isTrue hone => omega
      case isFalse hone => rfl
    rw [e1, e2]
  · rw [if_neg hreg, if_neg hreg]

theorem clip_fx_exWorld :
    clip_and_snap_fx (fun _ r => r) "snap.tif" "cand.tif" "out.tif" none exWorld =
      Except.ok exWorldOut := by
  have hy : yoffset exSnapFile.meta candA = 0 := by
    norm_num [yoffset, exSnapFile, candA, pyRound, round_eq]
  have hx : xoffset exSnapFile.meta candA = 0 := by
    norm_num [xoffset, exSnapFile, candA, pyRound, round_eq]
  have hasm := clip_snap_assemble_inside exSnapFile.meta candA [[7]] none rfl rfl
    (by rw [hy]) (by rw [hx]) (by rw [hy]; decide) (by rw [hx]; decide)
  change (match clip_snap_assemble exSnapFile.meta candA [[7]] none with
    | Except.ok gn => Except.ok (writeFile (setSnapEnv exWorld "snap.tif") "out.tif"
        (RastFile.mk (Meta.mk 0 0 1 1 1 1 gn.2) gn.1))
    | Except.error e => Except.error e) = Except.ok exWorldOut
  rw [hasm]
  rfl

/-! ### Claim theorems -/

/-- C1: the output of `find_overlap` is claimed to be 1 exactly where both
pixels lie outside the ±0.001% tolerance band around their NoData values.
The code instead overwrites in-band (NoData) pixels with 1 and thresholds
the raw sum of the two arrays at 2, contradicting its own docstring
("1's where both images have data"): with NoData −9999 a pixel where both
rasters hold the valid value 0 is mapped to 0 (the band around a negative
NoData value is even empty, so NoData pixels are never replaced there),
and with NoData 5 a pixel where both rasters hold NoData is mapped to 1. -/
theorem find_overlap_band_code_bug :
    overlapPixel (-9999) (-9999) 0 0 = 0 ∧ overlapPixelSpec (-9999) (-9999) 0 0 = 1 ∧
    overlapPixel 5 5 5 5 = 1 ∧ overlapPixelSpec 5 5 5 5 = 0 := by
  refine ⟨by norm_num [overlapPixel, maskNoData], by norm_num [overlapPixelSpec, hasDataSpec],
    by norm_num [overlapPixel, maskNoData], by norm_num [overlapPixelSpec, hasDataSpec]⟩

/-- C2 counterexample: with the height ratio equal to 1 and the width ratio
equal to 2 (a mismatch far beyond the 5-decimal tolerance) and no
resampling type, the resolution check of `spatially_match` takes its no-op
branch instead of raising the resolution-mismatch error: the `and` at
raster.py line 435 requires both ratios to differ from 1. -/
theorem spatially_match_single_mismatch_no_error :
    round5 ((2 : ℚ) / 1) ≠ 100000 ∧
    spatially_match_res_step false 1 2 1 1 = ResampAction.noop := by
  refine ⟨by norm_num [round5, pyRound, round_eq],
    by norm_num [spatially_match_res_step, round5, pyRound, round_eq]⟩

/-- C2 (amended): when the cell sizes differ by more than the 5-decimal
relative tolerance in BOTH the width and the height dimension and no
resampling type is set, `spatially_match` raises the resolution-mismatch
error instead of producing a best-effort aligned output. -/
theorem spatially_match_both_mismatch_raises
    (snapH snapW h w : ℚ)
    (hh : round5 (snapH / h) ≠ 100000) (hw : round5 (snapW / w) ≠ 100000) :
    spatially_match_res_step false snapH snapW h w = ResampAction.raiseError := by
  unfold spatially_match_res_step
  rw [if_pos ⟨hh, hw⟩]
  rfl

/-- C2 witness: both ratios equal 2, resampling type unset, and the error
is raised. -/
theorem spatially_match_both_mismatch_raises_witness :
    spatially_match_res_step false 2 2 1 1 = ResampAction.raiseError :=
  spatially_match_both_mismatch_raises 2 2 1 1
    (by norm_num [round5, pyRound, round_eq]) (by norm_num [round5, pyRound, round_eq])

/-- C6: the overlap computation is symmetric — exchanging the two rasters
together with their NoData values yields the same output grid. -/
theorem find_overlap_symmetric (ndA ndB : ℚ) (a b : Grid) :
    find_overlap_grid ndA ndB a b = find_overlap_grid ndB ndA b a := by
  unfold find_overlap_grid
  rw [List.zipWith_comm]
  congr 1
  funext rb ra
  rw [List.zipWith_comm]
  congr 1
  funext y x
  exact overlapPixel_comm ndA ndB x y

/-- C7: `many_stats` replaces NoData cells and cells outside
`[low_thresh, high_thresh]` with the missing marker and computes the
statistics over non-missing values only: the pixel `[1, −9999, 3]` with
NoData −9999 yields AVG 2 and NUM 2, a pixel with no valid observation
yields NUM 0, thresholds 0 and 10 discard the out-of-range values, and in
general NUM equals the number of non-missing observations. -/
theorem many_stats_masks_then_counts :
    AVG_pixel [(1, -9999), (-9999, -9999), (3, -9999)] none none = some 2 ∧
    NUM_pixel [(1, -9999), (-9999, -9999), (3, -9999)] none none = 2 ∧
    NUM_pixel [(-9999, -9999), (-9999, -9999)] none none = 0 ∧
    NUM_pixel [(-5, -9999), (4, -9999), (20, -9999)] (some 0) (some 10) = 1 ∧
    AVG_pixel [(-5, -9999), (4, -9999), (20, -9999)] (some 0) (some 10) = some 4 ∧
    ∀ vals low high, NUM_pixel vals low high = (validValues vals low high).length := by
  refine ⟨by norm_num [AVG_pixel, validValues, maskedStack, many_stats_filter,
      List.filterMap_cons],
    by norm_num [NUM_pixel, maskedStack, many_stats_filter, List.countP_cons],
    by norm_num [NUM_pixel, maskedStack, many_stats_filter, List.countP_cons],
    by norm_num [NUM_pixel, maskedStack, many_stats_filter, List.countP_cons],
    by norm_num [AVG_pixel, validValues, maskedStack, many_stats_filter,
      List.filterMap_cons], ?_⟩
  intro vals low high
  unfold NUM_pixel validValues
  rw [← length_sub_countP_none (maskedStack vals low high)]
  unfold maskedStack
  rw [List.length_map]

/-- C9 counterexample: the path `"a.Tif"` (an existing file, mixed-case
extension) is rejected by `is_rast` although the claim requires
case-insensitive matching to accept it: the whitelist holds only the
all-lowercase and all-uppercase spellings. -/
theorem is_rast_mixed_case_counterexample :
    is_rast (fun _ => true) "a.Tif" = false ∧
    is_rast_spec (fun _ => true) "a.Tif" = true := by
  refine ⟨by decide, by decide⟩

/-- C9 (amended): `is_rast` returns true exactly when the file exists and
its final three characters are one of the eleven raster extensions in
all-lowercase or all-uppercase form (mixed case is not recognized). -/
theorem is_rast_last_three_chars (isfile : String → Bool) (filename : String) :
    is_rast isfile filename = true ↔
      isfile filename = true ∧ filename.takeRight 3 ∈ rast_types := by
  unfold is_rast
  split
  case isTrue h => simp [h, List.any_eq_true]
  case isFalse h => simp [h]

/-- C10: `create_outname` with the `ext` parameter left at its default
`False` raises AttributeError (from `ext.replace` on a bool) before any
output name is constructed — for every bool value of `ext` — and the call
`core.create_outname(outdir, rastname, 'matched')` made by
`spatially_match` leaves `ext` at that default, so it fails the same way. -/
theorem create_outname_default_ext_fails
    (isfile : String → Bool) (outdir : Option String) (inname suffix : String)
    (b : Bool) :
    create_outname isfile outdir inname suffix (PyVal.pBool b) =
        Except.error PyError.attributeError ∧
    spatially_match_outname isfile outdir inname =
        Except.error PyError.attributeError :=
  ⟨rfl, rfl⟩

/-- C3 counterexample: two concrete runs of `clip_and_snap`'s buffer
assembly refute the claim as stated.  First, a 1×1 candidate at the
reference's own corner with NoData −9999 and override −1: the cell the
candidate does not cover holds −9999, the candidate's NoData value, not
the override −1 (the buffer at raster.py line 541 is filled with
`meta.NoData_Value`; the override is only handed to `from_numpy`).
Second, against a 1-row × 3-column reference with x-offset 0 the single
candidate pixel lands in the rightmost column (index 2) while the cell at
the geographically matching column 0 holds NoData: the column slice at
raster.py line 554 is measured from the right edge, mirroring the
placement in x. -/
theorem clip_and_snap_fill_and_position_counterexample :
    (clip_snap_assemble snapA candA [[5]] (some (-1)) =
        Except.ok (clip_snap_grid snapA candA [[5]], -1)) ∧
    get2 (clip_snap_grid snapA candA [[5]]) 0 0 = -9999 ∧
    ((-9999 : ℚ) ≠ -1) ∧
    (clip_snap_assemble snapB candA [[5]] none =
        Except.ok (clip_snap_grid snapB candA [[5]], -9999)) ∧
    xoffset snapB candA = 0 ∧
    get2 (clip_snap_grid snapB candA [[5]]) 0 0 = -9999 ∧
    get2 (clip_snap_grid snapB candA [[5]]) 0 2 = 5 := by
  have hyA : yoffset snapA candA = 0 := by norm_num [yoffset, snapA, candA, pyRound, round_eq]
  have hxA : xoffset snapA candA = 0 := by norm_num [xoffset, snapA, candA, pyRound, round_eq]
  have hyB : yoffset snapB candA = 0 := by norm_num [yoffset, snapB, candA, pyRound, round_eq]
  have hxB : xoffset snapB candA = 0 := by norm_num [xoffset, snapB, candA, pyRound, round_eq]
  have hrlA : rowLo snapA candA = 1 := by rw [rowLo_eval snapA candA 0 hyA]; decide
  have hclA : colLo snapA candA = 1 := by rw [colLo_eval snapA candA 0 hxA]; decide
  have hrhA : rowHi snapA candA = 2 := by rw [rowHi_eval snapA candA 0 hyA]; decide
  have hchA : colHi snapA candA = 2 := by rw [colHi_eval snapA candA 0 hxA]; decide
  have hrlB : rowLo snapB candA = 0 := by rw [rowLo_eval snapB candA 0 hyB]; decide
  have hclB : colLo snapB candA = 2 := by rw [colLo_eval snapB candA 0 hxB]; decide
  have hrhB : rowHi snapB candA = 1 := by rw [rowHi_eval snapB candA 0 hyB]; decide
  have hchB : colHi snapB candA = 3 := by rw [colHi_eval snapB candA 0 hxB]; decide
  refine ⟨?_, ?_, by norm_num, ?_, hxB, ?_, ?_⟩
  · have h := clip_snap_assemble_inside snapA candA [[5]] (some (-1)) rfl rfl
      (by rw [hyA]) (by rw [hxA]) (by rw [hyA]; decide) (by rw [hxA]; decide)
    rw [h]
    norm_num [savedNoData, candA]
  · rw [clip_snap_grid_cells snapA candA [[5]] rfl rfl
      (by rw [hrlA, hrhA]; decide) (by rw [hclA, hchA]; decide)
      0 0 (by decide) (by decide)]
    rw [hrlA, hclA]
    decide
  · have h := clip_snap_assemble_inside snapB candA [[5]] none rfl rfl
      (by rw [hyB]) (by rw [hxB]) (by rw [hyB]; decide) (by rw [hxB]; decide)
    rw [h]
    rfl
  · rw [clip_snap_grid_cells snapB candA [[5]] rfl rfl
      (by rw [hrlB, hrhB]; decide) (by rw [hclB, hchB]; decide)
      0 0 (by decide) (by decide)]
    rw [hrlB, hclB]
    decide
  · rw [clip_snap_grid_cells snapB candA [[5]] rfl rfl
      (by rw [hrlB, hrhB]; decide) (by rw [hclB, hchB]; decide)
      0 2 (by decide) (by decide)]
    rw [hrlB, hclB]
    decide

/-- C3 (amended): for a candidate whose slice region lies inside the
reference (nonnegative offsets, extents fitting), `clip_and_snap`
allocates a buffer of exactly `reference.Ysize × reference.Xsize` cells,
copies the candidate block to rows
`[Ysize − candYsize − yoffset, Ysize − yoffset)` and columns
`[Xsize − candXsize − xoffset, Xsize − xoffset)` (both measured from the
far edge — the column placement is therefore mirrored in x), and fills
every other cell with the candidate's own NoData value regardless of the
`NoData_Value` override, which only determines the NoData value recorded
in the saved file. -/
theorem clip_and_snap_inside_layout
    (snap m : Meta) (cand : Grid) (ov : Option ℚ)
    (hH : gridH cand = m.Ysize) (hW : gridW cand = m.Xsize)
    (hy0 : 0 ≤ yoffset snap m) (hx0 : 0 ≤ xoffset snap m)
    (hyfit : (m.Ysize : ℤ) + yoffset snap m ≤ (snap.Ysize : ℤ))
    (hxfit : (m.Xsize : ℤ) + xoffset snap m ≤ (snap.Xsize : ℤ)) :
    clip_snap_assemble snap m cand ov =
      Except.ok (clip_snap_grid snap m cand, savedNoData m ov) ∧
    gridH (clip_snap_grid snap m cand) = snap.Ysize ∧
    (∀ i, i < snap.Ysize → ((clip_snap_grid snap m cand).getD i []).length = snap.Xsize) ∧
    (∀ i j, i < snap.Ysize → j < snap.Xsize →
      get2 (clip_snap_grid snap m cand) i j =
        if rowLo snap m ≤ i ∧ i < rowLo snap m + m.Ysize ∧
           colLo snap m ≤ j ∧ j < colLo snap m + m.Xsize then
          get2 cand (i - rowLo snap m) (j - colLo snap m)
        else m.NoData_Value) := by
  have hr := row_bounds_inside snap m hy0 hyfit
  have hc := col_bounds_inside snap m hx0 hxfit
  exact ⟨clip_snap_assemble_inside snap m cand ov hH hW hy0 hx0 hyfit hxfit,
    placeGrid_height _ _ _ _ _ _ _ _,
    fun i hi => placeGrid_row_length _ _ _ _ _ _ _ _ i hi,
    fun i j hi hj => clip_snap_grid_cells snap m cand hH hW hr.1 hc.1 i j hi hj⟩

/-- C3 witness: the 1×1 candidate at the 2×2 reference's corner is placed
(per the mirrored slices) at cell (1,1) and the assembly succeeds. -/
theorem clip_and_snap_inside_layout_witness :
    clip_snap_assemble snapA candA [[5]] (some (-1)) =
      Except.ok (clip_snap_grid snapA candA [[5]], savedNoData candA (some (-1))) ∧
    get2 (clip_snap_grid snapA candA [[5]]) 1 1 = 5 := by
  have hyA : yoffset snapA candA = 0 := by norm_num [yoffset, snapA, candA, pyRound, round_eq]
  have hxA : xoffset snapA candA = 0 := by norm_num [xoffset, snapA, candA, pyRound, round_eq]
  have hrlA : rowLo snapA candA = 1 := by rw [rowLo_eval snapA candA 0 hyA]; decide
  have hclA : colLo snapA candA = 1 := by rw [colLo_eval snapA candA 0 hxA]; decide
  have h := clip_and_snap_inside_layout snapA candA [[5]] (some (-1)) rfl rfl
    (by rw [hyA]) (by rw [hxA]) (by rw [hyA]; decide) (by rw [hxA]; decide)
  refine ⟨h.1, ?_⟩
  rw [h.2.2.2 1 1 (by decide) (by decide), hrlA, hclA]
  decide

/-- C4: after the first clip, an oversized candidate triggers exactly one
more clip call (straight-line `if` at raster.py line 525 — the pass count
is 2, never more); and when the candidate is still larger than the
reference in either dimension when the copy step runs, that step fails
with a broadcast error (the failure the specification names
AlignmentOverflow) instead of looping or producing an output grid. -/
theorem clip_and_snap_one_extra_pass_then_error
    (snap m : Meta) (cand : Grid) (ov : Option ℚ)
    (hH : gridH cand = m.Ysize) (hW : gridW cand = m.Xsize)
    (hy : 1 ≤ snap.Ysize) (hx : 1 ≤ snap.Xsize)
    (hover : snap.Xsize < m.Xsize ∨ snap.Ysize < m.Ysize) :
    clip_pass_count snap m = 2 ∧ isErr (clip_snap_assemble snap m cand ov) = true := by
  refine ⟨?_, clip_snap_assemble_error_of_oversize snap m cand ov hH hW hy hx hover⟩
  unfold clip_pass_count
  rw [if_pos hover]

/-- C4 witness: a 3-row candidate against a 2-row reference: two clip
passes, and the copy step errors. -/
theorem clip_and_snap_one_extra_pass_then_error_witness :
    clip_pass_count snapC candD = 2 ∧
    isErr (clip_snap_assemble snapC candD [[5], [6], [7]] none) = true :=
  clip_and_snap_one_extra_pass_then_error snapC candD [[5], [6], [7]] none rfl rfl
    (by decide) (by decide) (by decide)

/-- C5 counterexample: a 2-row candidate lying entirely below the
reference (pixel offset −3, zero overlap).  The claim says `clip_and_snap`
does not fail and yields an all-NoData buffer; in fact the copy step at
raster.py lines 553-554 assigns the whole candidate array into a clamped
(shorter) slice region and fails with a broadcast shape error. -/
theorem clip_and_snap_zero_overlap_fails_counterexample :
    yoffset snapC candC < 0 ∧
    isErr (clip_snap_assemble snapC candC [[5], [6]] none) = true := by
  have hy : yoffset snapC candC = -3 := by
    norm_num [yoffset, snapC, candC, pyRound, round_eq]
  exact ⟨by rw [hy]; decide,
    clip_snap_assemble_error_of_neg_yoffset snapC candC [[5], [6]] none rfl
      (by decide) (by decide) (by rw [hy]; decide)⟩

/-- C5 (amended): for every candidate raster with a negative row offset
(extending below the reference, in particular lying entirely outside it)
and at least two rows, `clip_and_snap` fails at the copy step with a
broadcast shape error: out-of-bounds pixels are not discarded and no
all-NoData buffer is produced. -/
theorem clip_and_snap_negative_offset_error
    (snap m : Meta) (cand : Grid) (ov : Option ℚ)
    (hH : gridH cand = m.Ysize) (h2 : 2 ≤ m.Ysize) (hfit : m.Ysize ≤ snap.Ysize)
    (hneg : yoffset snap m < 0) :
    isErr (clip_snap_assemble snap m cand ov) = true :=
  clip_snap_assemble_error_of_neg_yoffset snap m cand ov hH h2 hfit hneg

/-- C5 witness: a candidate two pixels further down (offset −4) also makes
the copy step fail. -/
theorem clip_and_snap_negative_offset_error_witness :
    isErr (clip_snap_assemble snapC candC2 [[5], [6]] none) = true := by
  have hy : yoffset snapC candC2 = -4 := by
    norm_num [yoffset, snapC, candC2, pyRound, round_eq]
  exact clip_and_snap_negative_offset_error snapC candC2 [[5], [6]] none rfl
    (by decide) (by decide) (by rw [hy]; decide)

/-- C8 counterexample: the operations are neither pure nor fully
functional.  Starting from a state with no snap-raster environment,
`clip_and_snap` leaves the process-wide `arcpy.env.snapRaster` set to the
reference (raster.py line 507) — ambient toolkit state is touched; and
`find_overlap` never produces an output at all: its first statement
references the undefined name `check_module` (raster.py line 346), so the
call raises instead of writing the overlap result. -/
theorem clip_and_snap_env_mutation_counterexample :
    exWorld.snapEnv = none ∧
    envAfter (clip_and_snap_fx (fun _ r => r) "snap.tif" "cand.tif" "out.tif" none exWorld)
      = some "snap.tif" ∧
    find_overlap_fx (fun _ r => r) "a.tif" "b.tif" (-9999) (-9999) "ov.tif" exWorld2
      = Except.error "NameError: global name check_module is not defined" := by
  refine ⟨rfl, ?_, rfl⟩
  rw [clip_fx_exWorld]
  rfl

/-- C8 (amended): `clip_and_snap` is not stateless: whenever it succeeds
it has set the global snap-raster environment to its reference; it does
change no file other than its designated output path (its temp directory
is created and removed within the call).  `find_overlap` as written never
reaches any effect: every call raises NameError at its first statement
(raster.py line 346 references the undefined `check_module`), so it
leaves every file and the environment unchanged and never produces an
overlap output or shapefile — by failing, not by being pure; the
`clip_and_snap(file_A, file_B, file_B, ...)` call that would overwrite
input `file_B` is dead code. -/
theorem align_overlap_state_effects :
    (∀ clipOp snapName rastName outName ov w w',
      clip_and_snap_fx clipOp snapName rastName outName ov w = Except.ok w' →
        w'.snapEnv = some snapName ∧
        ∀ p, p ≠ outName → lookupFile w' p = lookupFile w p) ∧
    (∀ clipOp fileA fileB ndA ndB outpath w,
      find_overlap_fx clipOp fileA fileB ndA ndB outpath w =
        Except.error "NameError: global name check_module is not defined") :=
  ⟨fun clipOp sn rn outn ov w w' h =>
      ⟨clip_fx_ok_env clipOp sn rn outn ov w w' h,
       fun p hp => clip_fx_ok_files clipOp sn rn outn ov w w' h p hp⟩,
   fun _ _ _ _ _ _ _ => rfl⟩

/-- C8 witness: on the concrete run over `exWorld` the environment ends up
pointing at the reference and the candidate's file entry is untouched. -/
theorem align_overlap_state_effects_witness :
    exWorldOut.snapEnv = some "snap.tif" ∧
    lookupFile exWorldOut "cand.tif" = lookupFile exWorld "cand.tif" := by
  have h := align_overlap_state_effects.1 (fun _ r => r) "snap.tif" "cand.tif" "out.tif"
    none exWorld exWorldOut clip_fx_exWorld
  exact ⟨h.1, h.2 "cand.tif" (by decide)⟩

end Dnppy
